import Mathlib

/-!
# Verification of the book-recommendation agent core

Shallow embedding of `src/agent.py`: the five lookup tools, the executor
configuration built in `create_agent`, the `chat` function with its rolling
conversation history, and the credential checks of the `__main__` block.

External effects are made explicit parameters:
* the Tavily search call of each tool becomes a function from the built
  query string to a `SearchOutcome` (a result list, a non-list value, or a
  raised exception);
* the `agent_executor.invoke` call inside `chat` becomes an `InvokeResult`
  describing every response shape the Python code distinguishes (raised
  exception, `None`, a dict with/without an `output` key, an object with an
  `output` attribute, anything else);
* an exception raised in the outer `try` of `chat` before/around the invoke
  (e.g. `create_agent()` failing on line 272) becomes a boolean flag.

Apostrophes inside string literals are written with the `\x27` escape; the
resulting strings are character-for-character the ones in the source.
-/

namespace BookAgent

/-- A Python value as far as this code inspects one: either a string, or a
non-string value of which only the truthiness is ever used. -/
inductive PyVal where
  | str (s : String)
  | nonstr (truthy : Bool)
deriving DecidableEq

/-- Python truthiness of a `PyVal`: a string is truthy iff non-empty; for a
non-string value the truthiness is carried directly. -/
def pyTruthy : PyVal → Bool
  | PyVal.str s => s != ""
  | PyVal.nonstr t => t

/-- One entry of the global `chat_history` list: either a 2-tuple
`(role, content)` as appended by `chat` (src/agent.py:315-316), or any other
value (`malformed`), since a Python list can in principle hold anything. -/
inductive Msg where
  | pair (role : String) (content : PyVal)
  | malformed
deriving DecidableEq

/-- A message handed to the LangChain engine by the history-formatting loop
(src/agent.py:261-269): `HumanMessage(content=...)` or `AIMessage(content=...)`.
A `HumanMessage` is built from whatever content the history held, while an
`AIMessage` is only ever built from a non-empty string. -/
inductive FMsg where
  | human (content : PyVal)
  | ai (content : String)
deriving DecidableEq

/-- One iteration of the history-formatting loop (src/agent.py:262-269):
a non-2-tuple entry is skipped; a `"human"` entry is appended unconditionally;
an `"assistant"` entry is appended only when its content is truthy and a
string; any other role is skipped. -/
def formatStep (acc : List FMsg) (m : Msg) : List FMsg :=
  match m with
  | Msg.malformed => acc
  | Msg.pair role content =>
    if role = "human" then acc ++ [FMsg.human content]
    else if role = "assistant" ∧ pyTruthy content = true then
      match content with
      | PyVal.str s => acc ++ [FMsg.ai s]
      | PyVal.nonstr _ => acc
    else acc

/-- The full history-formatting pass of `chat` (src/agent.py:261-269): the
Python `for` loop over `chat_history` appending into `formatted_history`. -/
def formatHistory (hist : List Msg) : List FMsg :=
  hist.foldl formatStep []

/-- Modelled from the spec: a per-turn rendering rule stating which single
engine message (if any) a stored turn contributes — malformed turns and
assistant turns with empty or non-string content are skipped, human turns are
always rendered. `formatHistory` is proved equal to `List.filterMap renderOne`. -/
def renderOne (m : Msg) : Option FMsg :=
  match m with
  | Msg.malformed => none
  | Msg.pair role content =>
    if role = "human" then some (FMsg.human content)
    else if role = "assistant" ∧ pyTruthy content = true then
      match content with
      | PyVal.str s => some (FMsg.ai s)
      | PyVal.nonstr _ => none
    else none

/-! ## Lookup operations (src/agent.py:27-151) -/

/-- One entry of a Tavily result list; the code reads it with
`result.get('content', '')` and `result.get('url', '')`, so each key may be
absent. -/
structure SearchResult where
  content : Option String
  url : Option String
deriving DecidableEq

/-- The outcome of `search_tool.invoke(query)` as the tools distinguish it:
a list of result dicts, some non-list value (the code returns `str(results)`,
modelled by the string it converts to), or a raised exception with message
`e` (covering network errors, parsing errors, a missing API key, etc.). -/
inductive SearchOutcome where
  | ok (results : List SearchResult)
  | nonList (s : String)
  | raises (e : String)
deriving DecidableEq

/-- A search backend that responds identically to every query. -/
def constOutcome (o : SearchOutcome) : String → SearchOutcome :=
  fun _ => o

/-- One numbered item of the tools' formatted output:
`f"{i}. {content}\nSource: {url}\n\n"` (e.g. src/agent.py:46). -/
def formatItem (i : Nat) (r : SearchResult) : String :=
  toString i ++ ". " ++ r.content.getD "" ++ "\nSource: " ++ r.url.getD "" ++ "\n\n"

/-- The `for i, result in enumerate(results, 1)` formatting loop used by the
numbered-list tools (src/agent.py:43-46). -/
def formatNumberedFrom : Nat → List SearchResult → String
  | _, [] => ""
  | i, r :: rest => formatItem i r ++ formatNumberedFrom (i + 1) rest

/-- The unnumbered formatting loop of `get_book_details`
(src/agent.py:120-123): `f"{content}\nSource: {url}\n\n"` per result. -/
def formatUnnumbered : List SearchResult → String
  | [] => ""
  | r :: rest => r.content.getD "" ++ "\nSource: " ++ r.url.getD "" ++ "\n\n" ++ formatUnnumbered rest

/-- Query built by `search_books_by_genre` (src/agent.py:38). -/
def genre_search_query (genre : String) : String :=
  "best " ++ genre ++ " books 2024 2023 highly rated recommendations"

/-- Query built by `search_similar_books` (src/agent.py:62). -/
def similar_search_query (book_title : String) : String :=
  "books similar to " ++ book_title ++ " recommendations if you liked"

/-- Query built by `search_books_by_mood` (src/agent.py:86). -/
def mood_search_query (mood : String) : String :=
  mood ++ " books recommendations best rated"

/-- Query built by `get_book_details` (src/agent.py:111-114): starts from
`f"{book_title}"`, appends `f" by {author}"` only when `author` is truthy
(non-empty), then appends the fixed suffix. -/
def details_search_query (book_title author : String) : String :=
  (if author = "" then book_title else book_title ++ (" by " ++ author)) ++
    " book synopsis author information reading time pages"

/-- Query built by `search_where_to_buy` (src/agent.py:139). -/
def buy_search_query (book_title : String) : String :=
  "where to buy " ++ book_title ++ " book Amazon Goodreads library online"

/-- `search_books_by_genre` (src/agent.py:27-50): builds the query, invokes
the search backend, formats a list result as a numbered list under a header,
returns `str(results)` for a non-list, and converts any raised exception into
the string `"Error searching books by genre: " + str(e)`. -/
def search_books_by_genre (genre : String) (tavily : String → SearchOutcome) : String :=
  match tavily (genre_search_query genre) with
  | SearchOutcome.ok results => "Top books in " ++ genre ++ ":\n\n" ++ formatNumberedFrom 1 results
  | SearchOutcome.nonList s => s
  | SearchOutcome.raises e => "Error searching books by genre: " ++ e

/-- `search_similar_books` (src/agent.py:52-74). -/
def search_similar_books (book_title : String) (tavily : String → SearchOutcome) : String :=
  match tavily (similar_search_query book_title) with
  | SearchOutcome.ok results =>
      "Books similar to \x27" ++ book_title ++ "\x27:\n\n" ++ formatNumberedFrom 1 results
  | SearchOutcome.nonList s => s
  | SearchOutcome.raises e => "Error searching similar books: " ++ e

/-- `search_books_by_mood` (src/agent.py:76-98). -/
def search_books_by_mood (mood : String) (tavily : String → SearchOutcome) : String :=
  match tavily (mood_search_query mood) with
  | SearchOutcome.ok results => "Books for " ++ mood ++ " mood:\n\n" ++ formatNumberedFrom 1 results
  | SearchOutcome.nonList s => s
  | SearchOutcome.raises e => "Error searching books by mood: " ++ e

/-- `get_book_details` (src/agent.py:100-127): the one unnumbered formatter. -/
def get_book_details (book_title author : String) (tavily : String → SearchOutcome) : String :=
  match tavily (details_search_query book_title author) with
  | SearchOutcome.ok results =>
      "Details for \x27" ++ book_title ++ "\x27:\n\n" ++ formatUnnumbered results
  | SearchOutcome.nonList s => s
  | SearchOutcome.raises e => "Error getting book details: " ++ e

/-- `search_where_to_buy` (src/agent.py:129-151). -/
def search_where_to_buy (book_title : String) (tavily : String → SearchOutcome) : String :=
  match tavily (buy_search_query book_title) with
  | SearchOutcome.ok results =>
      "Where to get \x27" ++ book_title ++ "\x27:\n\n" ++ formatNumberedFrom 1 results
  | SearchOutcome.nonList s => s
  | SearchOutcome.raises e => "Error searching purchase options: " ++ e

/-- The spec's query template for the ByGenre operation, written from the
spec table row `"best {genre} books <years> highly rated recommendations"`
with the years `2024 2023` named by the claim. -/
def spec_genre_query (genre : String) : String :=
  "best " ++ genre ++ " books 2024 2023 highly rated recommendations"

/-- The spec's query template for Details when an author is given:
`"{title} by {author} book synopsis author information reading time pages"`. -/
def spec_details_query_with_author (book_title author : String) : String :=
  book_title ++ " by " ++ author ++ " book synopsis author information reading time pages"

/-- The spec's query template for Details with the author omitted:
`"{title} book synopsis author information reading time pages"`. -/
def spec_details_query_no_author (book_title : String) : String :=
  book_title ++ " book synopsis author information reading time pages"

/-! ## Executor configuration (src/agent.py:228-235) -/

/-- The keyword configuration `create_agent` passes to `AgentExecutor`
(src/agent.py:228-235). -/
structure AgentExecutorConfig where
  verbose : Bool
  handle_parsing_errors : Bool
  max_iterations : Nat
  max_execution_time : Nat
deriving DecidableEq

/-- The concrete configuration built on src/agent.py:228-235:
`verbose=True, handle_parsing_errors=True, max_iterations=10,
max_execution_time=120`. -/
def agentExecutorConfig : AgentExecutorConfig :=
  ⟨true, true, 10, 120⟩

/-- What the reasoning engine emits at one Thinking step: another tool call,
or a final answer. -/
inductive EngineDecision where
  | toolCall
  | finalAnswer (answer : String)

/-- Terminal state of the orchestration loop: `done` with the final answer,
or `aborted` at a ceiling; both record how many Thinking↔ToolCall cycles ran. -/
inductive LoopOutcome where
  | done (answer : String) (cycles : Nat)
  | aborted (cycles : Nat)
deriving DecidableEq

/-- Number of completed Thinking↔ToolCall cycles of a loop outcome. -/
def LoopOutcome.cycles : LoopOutcome → Nat
  | LoopOutcome.done _ c => c
  | LoopOutcome.aborted c => c

/-- Modelled from the spec: the `AgentExecutor` Thinking↔ToolCall loop itself
is LangChain library code, not in this repository; src/agent.py only
configures its ceilings. Following spec section 4.4: at each step, if the
remaining-iterations budget is exhausted or elapsed wall-clock time exceeds
the ceiling the loop aborts; otherwise the engine either produces a final
answer (`done`) or requests a tool call, which consumes one cycle and some
wall-clock time, and control returns to Thinking. -/
def runLoopAux (engine : Nat → EngineDecision) (stepTime : Nat → Nat) (maxTime : Nat) :
    Nat → Nat → Nat → LoopOutcome
  | 0, i, _ => LoopOutcome.aborted i
  | fuel + 1, i, elapsed =>
    if maxTime < elapsed then LoopOutcome.aborted i
    else
      match engine i with
      | EngineDecision.finalAnswer s => LoopOutcome.done s i
      | EngineDecision.toolCall =>
          runLoopAux engine stepTime maxTime fuel (i + 1) (elapsed + stepTime i)

/-- Modelled from the spec: one orchestration run under a configuration,
starting with the full iteration budget, zero cycles and zero elapsed time. -/
def runLoop (cfg : AgentExecutorConfig) (engine : Nat → EngineDecision)
    (stepTime : Nat → Nat) : LoopOutcome :=
  runLoopAux engine stepTime cfg.max_execution_time cfg.max_iterations 0 0

/-- An engine that always requests another tool call. -/
def alwaysToolCall : Nat → EngineDecision :=
  fun _ => EngineDecision.toolCall

/-- A step-time assignment in which every step takes no time. -/
def zeroTime : Nat → Nat :=
  fun _ => 0

/-! ## The chat function (src/agent.py:243-327) -/

/-- Substituted answer when `agent_executor.invoke` returns `None`
(src/agent.py:285). -/
def msgNoResponse : String :=
  "I apologize, but I couldn\x27t generate a response. Please try rephrasing your request."

/-- Substituted answer when a dict response has a falsy `output`
(src/agent.py:289). -/
def msgNoSuitable : String :=
  "I couldn\x27t find suitable book recommendations. Could you provide more details about your preferences?"

/-- Substituted answer when the computed output is empty or not a string
(src/agent.py:296). -/
def msgTrouble : String :=
  "I\x27m having trouble with that request. Could you tell me more about what kind of books you\x27re looking for?"

/-- Answer returned on line 322 in the (unreachable in practice) case of an
empty output. -/
def msgNotSure : String :=
  "I\x27m not sure how to help with that. Could you describe your reading preferences?"

/-- Answer returned by the outermost exception handler of `chat`
(src/agent.py:324-327). -/
def msgOuterError : String :=
  "I\x27m sorry, I encountered an error. Please try again with your book preferences."

/-- The hardcoded recommendation text substituted when
`agent_executor.invoke` raises (src/agent.py:298-311); the caught exception
is not interpolated, so the text is one constant. -/
def fallbackRecommendations : String :=
  "Based on your preferences for fast-paced sci-fi novels, I recommend the following books:\n\n1. The Ministry of Time by Kaliane Bradley: A fast-paced sci-fi novel that follows a group of characters as they navigate a mysterious world where time is broken.\n\n2. Seveneves by Neal Stephenson: A epic sci-fi novel that follows humanity\x27s struggle to survive after the moon explodes and the survivors must find a way to ensure their survival off-planet.\n\n3. Artemis by Andy Weir: A heist novel set on the Moon, which combines scientific accuracy with a compelling story.\n\n4. Dungeon Crawler Carl by Jason Anspach: A humorous and fast-paced sci-fi novel that follows the adventures of a group of characters as they navigate a fantasy world.\n\n5. We Are Legion (We Are Bob) by Dennis E. Taylor: A humorous and fast-paced sci-fi novel that follows the story of a man who is uploaded into a computer and becomes the AI controlling a spaceship.\n\nThese books offer a mix of fast-paced action, scientific accuracy, and compelling storytelling that fans of Project Hail Mary and The Martian are likely to enjoy."

/-- The result of `agent_executor.invoke(input_data)` as `chat` distinguishes
it (src/agent.py:281-298): a raised exception (message unused by the code),
`None`, a dict whose `output` key may be absent, an object with a non-`None`
`output` attribute (modelled by `str(response.output)`), or any other value
(modelled by `str(response)`). -/
inductive InvokeResult where
  | raises (e : String)
  | retNone
  | retDict (output : Option PyVal)
  | retObjOutput (s : String)
  | retOther (s : String)
deriving DecidableEq

/-- The final coercion of src/agent.py:295-296: an empty or non-string output
is replaced by `msgTrouble`. -/
def coerceOutput : PyVal → String
  | PyVal.str s => if s = "" then msgTrouble else s
  | PyVal.nonstr _ => msgTrouble

/-- The output string computed by the inner `try`/`except` of `chat`
(src/agent.py:281-311): the response-shape analysis of lines 284-293, then
the coercion of lines 295-296; a raised exception bypasses both and yields
the hardcoded fallback text. -/
def computeOutput : InvokeResult → String
  | InvokeResult.raises _ => fallbackRecommendations
  | InvokeResult.retNone => coerceOutput (PyVal.str msgNoResponse)
  | InvokeResult.retDict o =>
      coerceOutput (if pyTruthy (o.getD (PyVal.str "")) = true
                    then o.getD (PyVal.str "")
                    else PyVal.str msgNoSuitable)
  | InvokeResult.retObjOutput s => coerceOutput (PyVal.str s)
  | InvokeResult.retOther s => coerceOutput (PyVal.str s)

/-- The trailing truncation of src/agent.py:319-320: when more than 20
entries are stored, keep the last 20 (`chat_history[-20:]`). -/
def truncateHistory (h : List Msg) : List Msg :=
  if h.length > 20 then h.drop (h.length - 20) else h

/-- The body of `chat` after the invoke (src/agent.py:313-322): append the
`("human", user_input)` and `("assistant", output)` tuples unless the output
is empty or the literal sentinel `'No response generated'`, truncate to the
last 20 entries, and return the output (or `msgNotSure` were it empty). -/
def chatBody (user_input : String) (hist : List Msg) (r : InvokeResult) : String × List Msg :=
  let output := computeOutput r
  let hist1 :=
    if output ≠ "" ∧ output ≠ "No response generated" then
      hist ++ [Msg.pair "human" (PyVal.str user_input), Msg.pair "assistant" (PyVal.str output)]
    else hist
  (if output ≠ "" then output else msgNotSure, truncateHistory hist1)

/-- The history as it stands after the conditional append of
src/agent.py:313-316 and before truncation; `chatBody`'s second component is
definitionally `truncateHistory` of this list. -/
def appendedHistory (u : String) (hist : List Msg) (r : InvokeResult) : List Msg :=
  if computeOutput r ≠ "" ∧ computeOutput r ≠ "No response generated" then
    hist ++ [Msg.pair "human" (PyVal.str u), Msg.pair "assistant" (PyVal.str (computeOutput r))]
  else hist

/-- `chat` (src/agent.py:243-327). `setupRaises` models an exception thrown
in the outer `try` outside the inner one — e.g. `create_agent()` on line 272
failing — which the outermost handler (lines 324-327) converts into the fixed
apology string, leaving the history untouched. -/
def chat (setupRaises : Bool) (user_input : String) (hist : List Msg) (r : InvokeResult) :
    String × List Msg :=
  if setupRaises then (msgOuterError, hist) else chatBody user_input hist r

/-- Is this entry a `("human", <string>)` tuple? -/
def isHuman : Msg → Bool
  | Msg.pair role (PyVal.str _) => role == "human"
  | _ => false

/-- Is this entry an `("assistant", <string>)` tuple? -/
def isAssistant : Msg → Bool
  | Msg.pair role (PyVal.str _) => role == "assistant"
  | _ => false

/-- A history is well-shaped when it is a sequence of complete exchanges:
even length, alternating `("human", _)` then `("assistant", _)` tuples with
string contents, starting with human. -/
def goodShape : List Msg → Bool
  | [] => true
  | [_] => false
  | m1 :: m2 :: rest => isHuman m1 && isAssistant m2 && goodShape rest

/-- An invoke result whose dict carries a normal non-empty string answer. -/
def okInvoke : InvokeResult :=
  InvokeResult.retDict (some (PyVal.str "Here are five books."))

/-- Eleven distinct user inputs, for exercising eleven exchanges. -/
def exchangeInputs : List String :=
  ["q01", "q02", "q03", "q04", "q05", "q06", "q07", "q08", "q09", "q10", "q11"]

/-- Run one `chat` call per input, threading the history, with the engine
answering normally every time. -/
def runExchanges (inputs : List String) (hist : List Msg) : List Msg :=
  inputs.foldl (fun h u => (chat false u h okInvoke).2) hist

/-! ## Startup credential checks (src/agent.py:333-366) -/

/-- `not os.getenv(NAME)` in Python is true when the variable is unset or set
to the empty string; `envTruthy` is the complementary truthiness. -/
def envTruthy : Option String → Bool
  | none => false
  | some s => s != ""

/-- How far the `__main__` block (src/agent.py:333-372) gets before its first
blocking action: the key checks on lines 344-355 run first and `sys.exit(1)`
on a missing key; only then is the agent initialized (lines 361-366, exiting
on failure); only after that does the interactive chat loop start accepting
turns (line 372 onwards). -/
inductive MainOutcome where
  | exitMissingGroqKey
  | exitMissingTavilyKey
  | exitAgentInitFailure
  | chatLoopStarted
deriving DecidableEq

/-- The `__main__` startup sequence (src/agent.py:344-372), with the outcome
of `create_agent()` abstracted as a boolean. -/
def mainStartup (groqKey tavilyKey : Option String) (createAgentOk : Bool) : MainOutcome :=
  if envTruthy groqKey = false then MainOutcome.exitMissingGroqKey
  else if envTruthy tavilyKey = false then MainOutcome.exitMissingTavilyKey
  else if createAgentOk = false then MainOutcome.exitAgentInitFailure
  else MainOutcome.chatLoopStarted

/-! ## Helper lemmas -/

theorem coerceOutput_ne_empty (v : PyVal) : coerceOutput v ≠ "" := by
  cases v with
  | str s =>
    simp only [coerceOutput]
    split
    · decide
    · assumption
  | nonstr t => exact (by decide : msgTrouble ≠ "")

theorem computeOutput_ne_empty (r : InvokeResult) : computeOutput r ≠ "" := by
  cases r with
  | raises e => exact (by decide : fallbackRecommendations ≠ "")
  | retNone => exact coerceOutput_ne_empty (PyVal.str msgNoResponse)
  | retDict o =>
    exact coerceOutput_ne_empty
      (if pyTruthy (o.getD (PyVal.str "")) = true then o.getD (PyVal.str "")
       else PyVal.str msgNoSuitable)
  | retObjOutput s => exact coerceOutput_ne_empty (PyVal.str s)
  | retOther s => exact coerceOutput_ne_empty (PyVal.str s)

theorem chatBody_fst (u : String) (hist : List Msg) (r : InvokeResult) :
    (chatBody u hist r).1 = computeOutput r := by
  simp [chatBody, computeOutput_ne_empty r]

theorem chatBody_snd (u : String) (hist : List Msg) (r : InvokeResult) :
    (chatBody u hist r).2 = truncateHistory (appendedHistory u hist r) := rfl

theorem truncateHistory_length (h : List Msg) : (truncateHistory h).length = min h.length 20 := by
  unfold truncateHistory
  split
  · rename_i hl
    rw [List.length_drop]
    omega
  · rename_i hl
    omega

theorem truncateHistory_le (h : List Msg) : (truncateHistory h).length ≤ 20 := by
  rw [truncateHistory_length]
  omega

theorem truncateHistory_suffix (h : List Msg) : truncateHistory h <:+ h := by
  unfold truncateHistory
  split
  · exact List.drop_suffix _ _
  · exact List.suffix_refl _

theorem goodShape_append : ∀ (a b : List Msg), goodShape a = true → goodShape b = true →
    goodShape (a ++ b) = true
  | [], _, _, hb => hb
  | [_], _, ha, _ => by simp [goodShape] at ha
  | _ :: _ :: rest, b, ha, hb => by
    simp only [goodShape, Bool.and_eq_true] at ha
    simp only [List.cons_append, goodShape, Bool.and_eq_true]
    exact ⟨⟨ha.1.1, ha.1.2⟩, goodShape_append rest b ha.2 hb⟩

theorem goodShape_drop_two : ∀ (a : List Msg), goodShape a = true → goodShape (a.drop 2) = true
  | [], _ => rfl
  | [_], ha => by simp [goodShape] at ha
  | _ :: _ :: rest, ha => by
    simp only [goodShape, Bool.and_eq_true] at ha
    exact ha.2

theorem goodShape_drop_even : ∀ (k : Nat) (a : List Msg), goodShape a = true →
    goodShape (a.drop (2 * k)) = true
  | 0, a, ha => by simpa using ha
  | k + 1, a, ha => by
    have ih := goodShape_drop_even k (a.drop 2) (goodShape_drop_two a ha)
    rw [List.drop_drop] at ih
    have he : 2 + 2 * k = 2 * (k + 1) := by ring
    rwa [he] at ih

theorem goodShape_length_even : ∀ (a : List Msg), goodShape a = true → a.length % 2 = 0
  | [], _ => rfl
  | [_], ha => by simp [goodShape] at ha
  | _ :: _ :: rest, ha => by
    simp only [goodShape, Bool.and_eq_true] at ha
    have := goodShape_length_even rest ha.2
    simp only [List.length_cons]
    omega

theorem goodShape_truncate (h : List Msg) (hg : goodShape h = true) :
    goodShape (truncateHistory h) = true := by
  unfold truncateHistory
  split
  · rename_i hl
    have hev := goodShape_length_even h hg
    obtain ⟨k, hk⟩ : ∃ k, h.length - 20 = 2 * k := ⟨(h.length - 20) / 2, by omega⟩
    rw [hk]
    exact goodShape_drop_even k h hg
  · exact hg

theorem goodShape_exchange (u out : String) :
    goodShape [Msg.pair "human" (PyVal.str u), Msg.pair "assistant" (PyVal.str out)] = true := rfl

theorem formatStep_toList (acc : List FMsg) (m : Msg) :
    formatStep acc m = acc ++ (renderOne m).toList := by
  cases m with
  | malformed => simp [formatStep, renderOne]
  | pair role content =>
    by_cases h1 : role = "human"
    · simp [formatStep, renderOne, h1]
    · by_cases h2 : role = "assistant" ∧ pyTruthy content = true
      · cases content with
        | str s => simp [formatStep, renderOne, h1, h2]
        | nonstr t => simp [formatStep, renderOne, h1, h2]
      · simp [formatStep, renderOne, h1, h2]

theorem foldl_formatStep (l : List Msg) : ∀ (acc : List FMsg),
    l.foldl formatStep acc = acc ++ l.filterMap renderOne := by
  induction l with
  | nil => intro acc; simp
  | cons m rest ih =>
    intro acc
    rw [List.foldl_cons, ih (formatStep acc m), formatStep_toList]
    cases h : renderOne m <;> simp [h, List.filterMap_cons, List.append_assoc]

theorem runLoopAux_cycles (engine : Nat → EngineDecision) (stepTime : Nat → Nat) (maxTime : Nat) :
    ∀ (fuel i elapsed : Nat),
      (runLoopAux engine stepTime maxTime fuel i elapsed).cycles ≤ i + fuel
  | 0, i, _ => by simp [runLoopAux, LoopOutcome.cycles]
  | fuel + 1, i, elapsed => by
    simp only [runLoopAux]
    split
    · simp only [LoopOutcome.cycles]
      omega
    · split
      · simp only [LoopOutcome.cycles]
        omega
      · have ih := runLoopAux_cycles engine stepTime maxTime fuel (i + 1) (elapsed + stepTime i)
        omega

/-! ## Claims -/

/-- C1: for every user input, stored history and executor behaviour — the
invoke raising, returning `None`, a dict with or without `output`, or a
non-string — and also when the setup steps of `chat` themselves raise, `chat`
returns a non-empty string; as a total function of the modelled inputs it
never raises past its boundary. -/
theorem chat_returns_nonempty_string (setupRaises : Bool) (u : String) (hist : List Msg)
    (r : InvokeResult) : (chat setupRaises u hist r).1 ≠ "" := by
  cases setupRaises with
  | true => exact (by decide : msgOuterError ≠ "")
  | false =>
    show (chatBody u hist r).1 ≠ ""
    rw [chatBody_fst]
    exact computeOutput_ne_empty r

/-- C2 counterexample: an empty result list is not converted into an
`"Error ..."` string: `search_books_by_genre` formats it as the normal header
with zero items, which does not begin with `"Error"`. -/
theorem empty_result_list_is_not_error :
    search_books_by_genre "fantasy" (constOutcome (SearchOutcome.ok [])) =
      "Top books in fantasy:\n\n" ∧
    ¬ ∃ rest : String, ("Top books in fantasy:\n\n" : String) = "Error" ++ rest := by
  constructor
  · decide
  · rintro ⟨⟨l⟩, h⟩
    have hd : ("Top books in fantasy:\n\n").data = "Error".data ++ l := congrArg String.data h
    simp at hd

/-- C2 amended: a failure that raises inside any of the five lookup
operations (network error, parsing error, missing key, ...) is caught and
converted into exactly the string `"Error <doing X>: <cause>"`, which begins
with `"Error"`; the operations are total and never raise. An empty result
list, by contrast, yields the operation's normal header with zero items. -/
theorem tool_exceptions_become_error_strings (g t m d a b e : String) :
    search_books_by_genre g (constOutcome (SearchOutcome.raises e)) =
      "Error searching books by genre: " ++ e ∧
    search_similar_books t (constOutcome (SearchOutcome.raises e)) =
      "Error searching similar books: " ++ e ∧
    search_books_by_mood m (constOutcome (SearchOutcome.raises e)) =
      "Error searching books by mood: " ++ e ∧
    get_book_details d a (constOutcome (SearchOutcome.raises e)) =
      "Error getting book details: " ++ e ∧
    search_where_to_buy b (constOutcome (SearchOutcome.raises e)) =
      "Error searching purchase options: " ++ e ∧
    (∃ r1 : String, "Error searching books by genre: " ++ e = "Error" ++ r1) ∧
    (∃ r2 : String, "Error searching similar books: " ++ e = "Error" ++ r2) ∧
    (∃ r3 : String, "Error searching books by mood: " ++ e = "Error" ++ r3) ∧
    (∃ r4 : String, "Error getting book details: " ++ e = "Error" ++ r4) ∧
    (∃ r5 : String, "Error searching purchase options: " ++ e = "Error" ++ r5) := by
  refine ⟨rfl, rfl, rfl, rfl, rfl,
    ⟨" searching books by genre: " ++ e, ?_⟩,
    ⟨" searching similar books: " ++ e, ?_⟩,
    ⟨" searching books by mood: " ++ e, ?_⟩,
    ⟨" getting book details: " ++ e, ?_⟩,
    ⟨" searching purchase options: " ++ e, ?_⟩⟩
  · have h1 : ("Error searching books by genre: " : String) =
        "Error" ++ " searching books by genre: " := by decide
    rw [h1, String.append_assoc]
  · have h1 : ("Error searching similar books: " : String) =
        "Error" ++ " searching similar books: " := by decide
    rw [h1, String.append_assoc]
  · have h1 : ("Error searching books by mood: " : String) =
        "Error" ++ " searching books by mood: " := by decide
    rw [h1, String.append_assoc]
  · have h1 : ("Error getting book details: " : String) =
        "Error" ++ " getting book details: " := by decide
    rw [h1, String.append_assoc]
  · have h1 : ("Error searching purchase options: " : String) =
        "Error" ++ " searching purchase options: " := by decide
    rw [h1, String.append_assoc]

/-- C3: every completed `chat` call leaves at most 20 stored turns, and the
kept turns are a suffix — the most recent `min(length, 20)` entries — of the
history with the new exchange appended (FIFO eviction of the oldest);
concretely, after 11 exchanges starting from an empty history the first
exchange is gone from the stored history and from its rendering for the
engine. -/
theorem chat_history_capped :
    (∀ (setupRaises : Bool) (u : String) (hist : List Msg) (r : InvokeResult),
      hist.length ≤ 20 →
      ((chat setupRaises u hist r).2).length ≤ 20 ∧
      ∃ full : List Msg,
        (chat setupRaises u hist r).2 <:+ full ∧
        ((chat setupRaises u hist r).2).length = min full.length 20 ∧
        (full = hist ∨
         full = hist ++ [Msg.pair "human" (PyVal.str u),
                         Msg.pair "assistant" (PyVal.str (computeOutput r))])) ∧
    Msg.pair "human" (PyVal.str "q01") ∉ runExchanges exchangeInputs [] ∧
    FMsg.human (PyVal.str "q01") ∉ formatHistory (runExchanges exchangeInputs []) := by
  refine ⟨?_, by decide, by decide⟩
  intro setupRaises u hist r hlen
  cases setupRaises with
  | true =>
    have h2 : (chat true u hist r).2 = hist := rfl
    rw [h2]
    exact ⟨hlen, hist, List.suffix_refl _, by omega, Or.inl rfl⟩
  | false =>
    have hsnd : (chat false u hist r).2 = truncateHistory (appendedHistory u hist r) :=
      chatBody_snd u hist r
    rw [hsnd]
    refine ⟨truncateHistory_le _, appendedHistory u hist r, truncateHistory_suffix _,
      truncateHistory_length _, ?_⟩
    unfold appendedHistory
    split
    · exact Or.inr rfl
    · exact Or.inl rfl

/-- C3 witness: instantiating the capping theorem at a concrete call. -/
theorem chat_history_capped_witness :
    ([] : List Msg).length ≤ 20 ∧ ((chat false "hello" [] okInvoke).2).length ≤ 20 :=
  ⟨by decide, (chat_history_capped.1 false "hello" [] okInvoke (by decide)).1⟩

/-- C4: whatever exception the engine invocation raises and whatever the user
input and history, `chat` answers with the one hardcoded, non-empty fallback
recommendation text, so the conversation never surfaces an unhandled
failure. -/
theorem engine_failure_yields_fixed_fallback (u e : String) (hist : List Msg) :
    (chat false u hist (InvokeResult.raises e)).1 = fallbackRecommendations ∧
    fallbackRecommendations ≠ "" := by
  refine ⟨?_, by decide⟩
  show (chatBody u hist (InvokeResult.raises e)).1 = fallbackRecommendations
  rw [chatBody_fst]
  rfl

/-- C5: the executor built by `create_agent` fixes the step ceiling at 10 and
the wall-clock ceiling at 120 seconds, and the (spec-modelled) orchestration
loop under this configuration runs at most 10 Thinking↔ToolCall cycles
regardless of the engine's decisions, aborting immediately once the elapsed
time it checks between steps exceeds the wall-clock ceiling. -/
theorem orchestration_ceilings :
    agentExecutorConfig.max_iterations = 10 ∧
    agentExecutorConfig.max_execution_time = 120 ∧
    (∀ (engine : Nat → EngineDecision) (stepTime : Nat → Nat),
      (runLoop agentExecutorConfig engine stepTime).cycles ≤ 10) ∧
    (∀ (engine : Nat → EngineDecision) (stepTime : Nat → Nat) (fuel i elapsed : Nat),
      agentExecutorConfig.max_execution_time < elapsed →
      runLoopAux engine stepTime agentExecutorConfig.max_execution_time fuel i elapsed =
        LoopOutcome.aborted i) := by
  refine ⟨rfl, rfl, ?_, ?_⟩
  · intro engine stepTime
    have h := runLoopAux_cycles engine stepTime 120 10 0 0
    show (runLoopAux engine stepTime 120 10 0 0).cycles ≤ 10
    omega
  · intro engine stepTime fuel i elapsed hel
    cases fuel with
    | zero => rfl
    | succ f =>
      simp only [runLoopAux]
      rw [if_pos hel]

/-- C5 witness: an engine that always calls tools is cut off at the ceilings. -/
theorem orchestration_ceilings_witness :
    agentExecutorConfig.max_execution_time < 121 ∧
    runLoopAux alwaysToolCall zeroTime agentExecutorConfig.max_execution_time 10 0 121 =
      LoopOutcome.aborted 0 :=
  ⟨by decide, orchestration_ceilings.2.2.2 alwaysToolCall zeroTime 10 0 121 (by decide)⟩

/-- C6 counterexample: the render does not skip every empty or malformed
turn — a `("human", "")` turn with empty content is kept as a `HumanMessage`
with empty content, and skipping an assistant turn with non-string content
leaves two adjacent human messages, so the alternating structure is not kept
intact either. -/
theorem render_keeps_empty_human_turn :
    formatHistory [Msg.pair "human" (PyVal.str "")] = [FMsg.human (PyVal.str "")] ∧
    formatHistory [Msg.pair "human" (PyVal.str "a"), Msg.pair "assistant" (PyVal.nonstr true),
                   Msg.pair "human" (PyVal.str "b")] =
      [FMsg.human (PyVal.str "a"), FMsg.human (PyVal.str "b")] := by
  decide

/-- C6 amended: the render is a per-turn filter that never fails the whole
pass: each stored turn independently contributes at most one engine message —
non-2-tuple turns contribute nothing, a `"human"` turn always contributes a
`HumanMessage` whatever its content, and an `"assistant"` turn contributes an
`AIMessage` exactly when its content is a non-empty string. -/
theorem render_is_per_turn_filter (hist : List Msg) :
    formatHistory hist = hist.filterMap renderOne := by
  have key := foldl_formatStep hist ([] : List FMsg)
  simpa [formatHistory] using key

/-- C7: the ByGenre operation builds exactly the query of the spec's table
for every genre, and the Details operation builds the with-author form when
the author is non-empty and the author-free form when it is empty. -/
theorem queries_match_spec (genre book_title author : String) :
    genre_search_query genre = spec_genre_query genre ∧
    (author ≠ "" →
      details_search_query book_title author = spec_details_query_with_author book_title author) ∧
    details_search_query book_title "" = spec_details_query_no_author book_title := by
  refine ⟨rfl, ?_, ?_⟩
  · intro h
    unfold details_search_query spec_details_query_with_author
    rw [if_neg h]
    rw [String.append_assoc book_title " by " author]
  · simp [details_search_query, spec_details_query_no_author]

/-- C7 witness: the Details query at a concrete title and author. -/
theorem queries_match_spec_witness :
    ("Frank Herbert" : String) ≠ "" ∧
    details_search_query "Dune" "Frank Herbert" =
      spec_details_query_with_author "Dune" "Frank Herbert" :=
  ⟨by decide, (queries_match_spec "sci-fi" "Dune" "Frank Herbert").2.1 (by decide)⟩

/-- C8: if either API credential is unset or empty, the `__main__` startup
exits at the key check itself: it reaches neither the agent initialization
step nor the interactive loop, so no conversation turn is ever accepted. -/
theorem missing_keys_stop_startup (groqKey tavilyKey : Option String) (createAgentOk : Bool)
    (h : envTruthy groqKey = false ∨ envTruthy tavilyKey = false) :
    (mainStartup groqKey tavilyKey createAgentOk = MainOutcome.exitMissingGroqKey ∨
     mainStartup groqKey tavilyKey createAgentOk = MainOutcome.exitMissingTavilyKey) ∧
    mainStartup groqKey tavilyKey createAgentOk ≠ MainOutcome.chatLoopStarted ∧
    mainStartup groqKey tavilyKey createAgentOk ≠ MainOutcome.exitAgentInitFailure := by
  by_cases hg : envTruthy groqKey = false
  · refine ⟨Or.inl ?_, ?_, ?_⟩ <;> simp [mainStartup, hg]
  · have ht : envTruthy tavilyKey = false := h.resolve_left hg
    refine ⟨Or.inr ?_, ?_, ?_⟩ <;> simp [mainStartup, hg, ht]

/-- C8 witness: a missing Groq key with a present Tavily key stops startup. -/
theorem missing_keys_stop_startup_witness :
    (envTruthy none = false ∨ envTruthy (some "tvly-key") = false) ∧
    mainStartup none (some "tvly-key") true ≠ MainOutcome.chatLoopStarted :=
  ⟨Or.inl (by decide), (missing_keys_stop_startup none (some "tvly-key") true
    (Or.inl (by decide))).2.1⟩

/-- C9 counterexample: a call that stays out of the outermost handler can
append nothing — when the invoke response's string form is exactly
`'No response generated'`, the guard on src/agent.py:314 skips both appends
and the history stays empty. -/
theorem sentinel_output_appends_nothing :
    (chat false "hi" [] (InvokeResult.retOther "No response generated")).1 =
      "No response generated" ∧
    (chat false "hi" [] (InvokeResult.retOther "No response generated")).2 = [] := by
  decide

/-- C9 amended: unless the computed output is the literal sentinel
`'No response generated'` (in which case nothing is appended), each
non-outer-handler `chat` call appends exactly `("human", user_input)` then
`("assistant", output)`; a well-shaped history — even length, strictly
alternating human/assistant string tuples starting with human — stays
well-shaped through the append and the 20-entry FIFO truncation. -/
theorem chat_appends_one_exchange (u : String) (hist : List Msg) (r : InvokeResult)
    (hg : goodShape hist = true) :
    goodShape ((chat false u hist r).2) = true ∧
    (computeOutput r ≠ "No response generated" →
      (chat false u hist r).2 =
        truncateHistory (hist ++ [Msg.pair "human" (PyVal.str u),
                                  Msg.pair "assistant" (PyVal.str (computeOutput r))])) ∧
    (computeOutput r = "No response generated" →
      (chat false u hist r).2 = truncateHistory hist) := by
  have hsnd : (chat false u hist r).2 = truncateHistory (appendedHistory u hist r) :=
    chatBody_snd u hist r
  refine ⟨?_, ?_, ?_⟩
  · rw [hsnd]
    apply goodShape_truncate
    unfold appendedHistory
    split
    · exact goodShape_append _ _ hg (goodShape_exchange u (computeOutput r))
    · exact hg
  · intro hne
    rw [hsnd]
    unfold appendedHistory
    rw [if_pos ⟨computeOutput_ne_empty r, hne⟩]
  · intro heq
    rw [hsnd]
    unfold appendedHistory
    rw [if_neg (fun hc => hc.2 heq)]

/-- C9 witness: one normal exchange from the empty history. -/
theorem chat_appends_one_exchange_witness :
    goodShape ([] : List Msg) = true ∧ goodShape ((chat false "hi" [] okInvoke).2) = true :=
  ⟨by decide, (chat_appends_one_exchange "hi" [] okInvoke (by decide)).1⟩

/-- C10: on every call that stays out of the outermost handler, the string
`chat` returns is exactly the computed output — including the hardcoded
fallback and every substituted message — and the stored history either gains
nothing or gains the exchange whose assistant turn carries exactly that
returned string, so recovery text re-enters the engine's context later. -/
theorem chat_return_matches_recorded_turn (u : String) (hist : List Msg) (r : InvokeResult) :
    (chat false u hist r).1 = computeOutput r ∧
    ((chat false u hist r).2 = truncateHistory hist ∨
     (chat false u hist r).2 =
       truncateHistory (hist ++ [Msg.pair "human" (PyVal.str u),
                                 Msg.pair "assistant" (PyVal.str ((chat false u hist r).1))])) := by
  have hfst : (chat false u hist r).1 = computeOutput r := chatBody_fst u hist r
  refine ⟨hfst, ?_⟩
  have hsnd : (chat false u hist r).2 = truncateHistory (appendedHistory u hist r) :=
    chatBody_snd u hist r
  rw [hsnd, hfst]
  unfold appendedHistory
  split
  · exact Or.inr rfl
  · exact Or.inl rfl

end BookAgent
